import Mathlib

/-!
Shallow embedding of the core analysis pipeline of `src/components/ExcelAnalyzer.tsx`
(the "Excel Action Analyzer"): the assignment classifier `isAssigned`, the date
normalizer `parseDate`, the column locator `findColumns` and the row-scanning
aggregation `analyzeExcel`.

Modelling conventions:
* JavaScript strings are Lean `String`s; JavaScript numbers are modelled as `ℚ`
  with exact arithmetic (every numeric value a spreadsheet cell can carry is a
  binary64 value, hence a rational; `NaN`/`Infinity` do not arise from the
  workbook reader for cell payloads and are not modelled).
* A JavaScript `Date` is its millisecond timestamp, as a `ℚ` (milliseconds since
  1970-01-01T00:00Z).  `new Date(y, m, d)` builds a *local* midnight; the host's
  UTC offset (in milliseconds east of UTC) is threaded through as the explicit
  parameter `tz`.
* The clock read `getTodayInKolkata()` happens once per run; it is modelled as
  the explicit parameter `today` of `analyzeExcel` (the spec itself mandates the
  value be computed once and threaded through the scan).
* A worksheet is modelled as its decoded rectangular grid: a list of rows, row 0
  the header row, each row a list of optional cells (a missing entry of the
  sheet object is `none`).  `range.e.r` is `grid.length - 1`.
* Column references are kept as 0-based indices internally and rendered with
  `encode_col` (bijective base 26, as in `XLSX.utils.encode_col`) where the
  source stores letter codes; `XLSX` encode/decode of column letters are
  mutually inverse, so the index round-trip through letters is dropped.
-/

deriving instance DecidableEq for Except

namespace ExcelSpec

/-- A raw JavaScript cell payload: a string or a number. -/
inductive JSVal where
  | vStr : String → JSVal
  | vNum : ℚ → JSVal
deriving DecidableEq, Repr

/-- A worksheet cell: optional display-formatted text `w` and optional raw value
`v`, as in the SheetJS cell object. -/
structure Cell where
  w : Option String
  v : Option JSVal
deriving DecidableEq, Repr

/-- JavaScript truthiness of a cell payload: `""` and `0` are falsy. -/
def truthy : JSVal → Bool
  | .vStr s => decide (s ≠ "")
  | .vNum n => decide (n ≠ 0)

/-- The value-selection idiom `cell?.w || cell?.v` used for every data cell:
the display text when present and truthy (non-empty), otherwise the raw value
(`||` yields its second operand, truthy or not, when the first is falsy);
`none` models `undefined`. -/
def wv : Option Cell → Option JSVal
  | none => none
  | some c =>
    match c.w with
    | some s => if s = "" then c.v else some (.vStr s)
    | none => c.v

/-- JavaScript `String(value)`.  Strings are returned as-is; integral numbers
print as plain decimal integers.  A non-integral number prints as sign, integer
part, decimal point and fraction digits; binary64 values have denominators that
are powers of two, so 1100 digits of fuel render every such fraction exactly
(the analyzer only ever compares the result against short keyword tokens, from
which any decimal-point rendering differs). -/
def natFracDigits : Nat → Nat → Nat → List Char
  | 0, _, _ => []
  | _ + 1, _, 0 => []
  | fuel + 1, den, num =>
    let n10 := num * 10
    Char.ofNat (n10 / den + 48) :: natFracDigits fuel den (n10 % den)

/-- JavaScript `String(value)` on cell payloads (see `natFracDigits`). -/
def jsString : JSVal → String
  | .vStr s => s
  | .vNum q =>
    if q.den = 1 then toString q.num
    else
      let sign := if q < 0 then "-" else ""
      let a := |q|
      sign ++ toString (a.num.toNat / a.den) ++ "." ++
        String.mk (natFracDigits 1100 a.den (a.num.toNat % a.den))

/-- ASCII lower-casing, modelling `String.prototype.toLowerCase` on the
header/value texts (all comparisons in the analyzer are against ASCII tokens). -/
def strToLower (s : String) : String := String.mk (s.data.map Char.toLower)

/-- Whitespace recognised by `String.prototype.trim` (ASCII range). -/
def isWS (c : Char) : Bool :=
  c.toNat = 32 || c.toNat = 9 || c.toNat = 10 || c.toNat = 13 ||
  c.toNat = 11 || c.toNat = 12

/-- JavaScript `String.prototype.trim`. -/
def strTrim (s : String) : String :=
  String.mk (((s.data.dropWhile isWS).reverse.dropWhile isWS).reverse)

/-- Substring test on character lists (JavaScript `String.prototype.includes`). -/
def charsIncl (p : List Char) : List Char → Bool
  | [] => p.isEmpty
  | c :: rest => p.isPrefixOf (c :: rest) || charsIncl p rest

/-- JavaScript `s.includes(pat)`. -/
def strContains (s pat : String) : Bool := charsIncl pat.data s.data

/-- JavaScript `Array.prototype.includes` on string lists (uses `===`). -/
def strListHas : List String → String → Bool
  | [], _ => false
  | x :: rest, s => s == x || strListHas rest s

/-- The assignment classifier `isAssigned` of `ExcelAnalyzer.tsx` (lines 28-33):
`null`/`undefined`/`''` are unassigned; otherwise the lower-cased trimmed
stringification is compared against keyword lists. -/
def isAssigned (value : Option JSVal) : Bool :=
  match value with
  | none => false
  | some v =>
    if v = JSVal.vStr "" then false
    else
      let str := strTrim (strToLower (jsString v))
      strListHas ["yes", "true", "assigned", "done", "1"] str ||
      (str != "no" && str != "false" && str != "unassigned" && str != "0" && str != "")

/-- Days from 1970-01-01 of the civil date `y-m-d` (proleptic Gregorian,
valid for `y ≥ 1`; every date the analyzer touches is in 1899-2099). -/
def daysFromCivil (y m d : Nat) : Int :=
  let yAdj := if m ≤ 2 then y - 1 else y
  let era := yAdj / 400
  let yoe := yAdj % 400
  let mp := (m + 9) % 12
  let doy := (153 * mp + 2) / 5 + d - 1
  let doe := yoe * 365 + yoe / 4 - yoe / 100 + doy
  (era : Int) * 146097 + (doe : Int) - 719468

/-- Gregorian leap year test. -/
def isLeap (y : Nat) : Bool := (y % 4 = 0 && y % 100 ≠ 0) || y % 400 = 0

/-- Days in month `m` of year `y`. -/
def daysInMonth (y m : Nat) : Nat :=
  if m = 2 then (if isLeap y then 29 else 28)
  else if m = 4 || m = 6 || m = 9 || m = 11 then 30
  else 31

/-- Models the JavaScript `new Date(string)` parser on the inputs the analyzer
can meet: an ISO `YYYY-MM-DD` date-only string parses to UTC midnight of that
date (ECMA-262 date-time string format); a string with out-of-range components
is an Invalid Date, and every other string is modelled as unparseable, both
yielding `none` (the caller maps `NaN` dates to `null`).  The result is the
millisecond timestamp. -/
def parseDateString (s : String) : Option ℚ :=
  match s.data with
  | [y1, y2, y3, y4, s1, m1, m2, s2, d1, d2] =>
    if (y1.isDigit && y2.isDigit && y3.isDigit && y4.isDigit &&
        (s1 == '-') && m1.isDigit && m2.isDigit && (s2 == '-') &&
        d1.isDigit && d2.isDigit) then
      let y := (y1.toNat - 48) * 1000 + (y2.toNat - 48) * 100 +
               (y3.toNat - 48) * 10 + (y4.toNat - 48)
      let mo := (m1.toNat - 48) * 10 + (m2.toNat - 48)
      let da := (d1.toNat - 48) * 10 + (d2.toNat - 48)
      if 1 ≤ mo ∧ mo ≤ 12 ∧ 1 ≤ da ∧ da ≤ daysInMonth y mo then
        some ((daysFromCivil y mo da * 86400000 : Int) : ℚ)
      else none
    else none
  | _ => none

/-- The date normalizer `parseDate` of `ExcelAnalyzer.tsx` (lines 35-48).
Falsy input (`null`/`undefined`/`''`/`0`) yields `null`.  A number `n` is an
Excel serial: `new Date(1900, 0, 1)` (local midnight, hence the `- tz` term)
plus `(n - 2) * 86400000` milliseconds.  A string goes through the host date
parser (`parseDateString`). -/
def parseDate (v : Option JSVal) (tz : Int) : Option ℚ :=
  match v with
  | none => none
  | some val =>
    if truthy val = false then none
    else
      match val with
      | .vNum n =>
        some (((daysFromCivil 1900 1 1 * 86400000 - tz : Int) : ℚ) +
          (n - 2) * 86400000)
      | .vStr s => parseDateString s

/-- `XLSX.utils.encode_col`: 0-based column index to letters (bijective base 26). -/
def encodeColAux : Nat → Nat → String → String
  | 0, _, s => s
  | fuel + 1, col, s =>
    if col = 0 then s
    else encodeColAux fuel ((col - 1) / 26)
      (String.mk [Char.ofNat ((col - 1) % 26 + 65)] ++ s)

/-- `XLSX.utils.encode_col`. -/
def encode_col (c : Nat) : String := encodeColAux (c + 1) (c + 1) ""

/-- The header text of a header cell: `String(cell.w || cell.v || '')`
lower-cased and trimmed, as computed by `findColumns` (line 67). -/
def headerStr (c : Cell) : String :=
  strTrim (strToLower (jsString (match wv (some c) with
    | some val => if truthy val then val else .vStr ""
    | none => .vStr "")))

/-- The header-row scan loop of `findColumns` (lines 62-73) as structural
recursion over the columns: `i` is the current column index, `a`/`d` the
`actionCol`/`dueDateCol` accumulators.  The guard structure (including the
JavaScript precedence `A || B && C` of line 70) is kept exactly. -/
def fcGo : List (Option Cell) → Nat → Option Nat → Option Nat →
    Option Nat × Option Nat
  | [], _, a, d => (a, d)
  | oc :: rest, i, a, d =>
    match oc with
    | none => fcGo rest (i + 1) a d
    | some c =>
      let h := headerStr c
      if strContains h "action" && a.isNone then
        fcGo rest (i + 1) (some i) d
      else if (strContains h "due" && strContains h "date") ||
          ((h == "due date") && d.isNone) then
        fcGo rest (i + 1) a (some i)
      else
        fcGo rest (i + 1) a d

/-- The column locator on the header row, returning 0-based column indices. -/
def findColumnsIdx (hs : List (Option Cell)) : Option Nat × Option Nat :=
  fcGo hs 0 none none

/-- `findColumns` of `ExcelAnalyzer.tsx` (lines 56-76): the located columns as
letter codes, as the source stores them. -/
def findColumns (hs : List (Option Cell)) : Option String × Option String :=
  ((findColumnsIdx hs).1.map encode_col, (findColumnsIdx hs).2.map encode_col)

/-- Does this header match the action heuristic (`header.includes('action')`)? -/
def actionMatch : Option Cell → Bool
  | none => false
  | some c => strContains (headerStr c) "action"

/-- Does this header match the due-date heuristic
(`header.includes('due') && header.includes('date')`; exact equality with
`"due date"` implies it)? -/
def dueMatch : Option Cell → Bool
  | none => false
  | some c => strContains (headerStr c) "due" && strContains (headerStr c) "date"

/-- A decoded worksheet: rows of optional cells, row 0 the header row. -/
abbrev Grid := List (List (Option Cell))

/-- The cell of `g` at 0-based row/column, `none` when absent. -/
def cellAt (g : Grid) (row col : Nat) : Option Cell :=
  match g[row]? with
  | none => none
  | some r =>
    match r[col]? with
    | none => none
    | some oc => oc

/-- The header row (row 0) of a grid. -/
def headerRow (g : Grid) : List (Option Cell) := (g[0]?).getD []

/-- One iteration of the data-row loop of `analyzeExcel` (lines 106-128) over
the accumulator `(totalRows, assignedCount, overdueCount)`. -/
def analyzeRow (g : Grid) (aIdx : Nat) (dIdx : Option Nat) (today : ℚ)
    (tz : Int) (acc : Nat × Nat × Nat) (row : Nat) : Nat × Nat × Nat :=
  let actionCell := cellAt g row aIdx
  if actionCell.isNone && dIdx.isNone then acc
  else if isAssigned (wv actionCell) then
    match dIdx with
    | some dc =>
      match parseDate (wv (cellAt g row dc)) tz with
      | some due =>
        if due < today then (acc.1 + 1, acc.2.1 + 1, acc.2.2 + 1)
        else (acc.1 + 1, acc.2.1 + 1, acc.2.2)
      | none => (acc.1 + 1, acc.2.1 + 1, acc.2.2)
    | none => (acc.1 + 1, acc.2.1 + 1, acc.2.2)
  else (acc.1 + 1, acc.2.1, acc.2.2)

/-- `Math.round(x * 10) / 10`: round to one decimal place (`Math.round` is
floor of `x + 1/2`, which `round` on `ℚ` matches for these non-negative
percentages). -/
def roundTo1 (q : ℚ) : ℚ := ((round (q * 10) : ℤ) : ℚ) / 10

/-- The analysis result record, restricted to the analysis fields (the
presentation-only `today_iso`, `timezone` and `summary` strings are rendered
from these same values and are not modelled). -/
structure AnalysisResult where
  total_rows : Nat
  assigned_count : Nat
  assigned_pct : ℚ
  overdue_count : Nat
  overdue_pct_of_assigned : ℚ
  columns_used_action : String
  columns_used_due_date : String
  notes : List String
deriving DecidableEq, Repr

/-- `analyzeExcel` of `ExcelAnalyzer.tsx` (lines 78-156) on a decoded grid:
locate columns, fail when no action column exists, otherwise scan data rows
`1 .. range.e.r` and aggregate.  `today` is the once-per-run reference date
(millisecond timestamp), `tz` the host UTC offset used by `new Date(y, m, d)`. -/
def analyzeExcel (g : Grid) (today : ℚ) (tz : Int) :
    Except String AnalysisResult :=
  match findColumnsIdx (headerRow g) with
  | (none, _) =>
    Except.error "Action column not found. Please ensure your Excel file has an \"Action\" column."
  | (some aIdx, dIdx) =>
    let notes : List String :=
      if dIdx.isNone then ["Due Date column not found. Overdue analysis skipped."]
      else []
    let counts :=
      (List.range' 1 (g.length - 1)).foldl (analyzeRow g aIdx dIdx today tz) (0, 0, 0)
    let assignedPct : ℚ :=
      if counts.1 > 0 then ((counts.2.1 : ℚ) / (counts.1 : ℚ)) * 100 else 0
    let overduePct : ℚ :=
      if counts.2.1 > 0 then ((counts.2.2 : ℚ) / (counts.2.1 : ℚ)) * 100 else 0
    Except.ok
      { total_rows := counts.1
        assigned_count := counts.2.1
        assigned_pct := roundTo1 assignedPct
        overdue_count := counts.2.2
        overdue_pct_of_assigned := roundTo1 overduePct
        columns_used_action := encode_col aIdx
        columns_used_due_date :=
          match dIdx with
          | some dc => encode_col dc
          | none => "Not found"
        notes := notes }

/-- A header/data cell holding the plain string `s` (raw value, no display text). -/
def cellS (s : String) : Option Cell := some ⟨none, some (.vStr s)⟩

/-- Scenario A grid: header row `["Action", "Due Date"]` and three data rows. -/
def gridA : Grid :=
  [[cellS "Action", cellS "Due Date"],
   [cellS "Yes", cellS "2020-01-01"],
   [cellS "No", cellS "2099-01-01"],
   [cellS "true", cellS "2020-01-01"]]

/-- The reference date of Scenario A: local midnight of 2024-01-01 in
Asia/Kolkata (UTC+5:30, offset 19800000 ms). -/
def todayA : ℚ := ((daysFromCivil 2024 1 1 * 86400000 - 19800000 : Int) : ℚ)

/-- The result record `analyzeExcel` produces for Scenario A. -/
def resultA : AnalysisResult :=
  { total_rows := 3
    assigned_count := 2
    assigned_pct := 667 / 10
    overdue_count := 2
    overdue_pct_of_assigned := 100
    columns_used_action := "A"
    columns_used_due_date := "B"
    notes := [] }

/-- The header row of the C1 failing input: three headers, of which both
column 1 ("Due Date") and column 2 ("Start Due Date") match the due-date
heuristic. -/
def headersC1 : List (Option Cell) :=
  [cellS "Action", cellS "Due Date", cellS "Start Due Date"]

/-- A grid whose single data row has the action value "No": counted, but not
assigned. -/
def gridNoAssigned : Grid := [[cellS "Action"], [cellS "No"]]

/-- The assignment rule exactly as the specification words it: blank/absent is
unassigned; a normalized value in the positive keyword set is assigned;
every other value is assigned unless the normalized value is in the negative
keyword set. -/
def isAssignedSpec (value : Option JSVal) : Bool :=
  match value with
  | none => false
  | some v =>
    if v = JSVal.vStr "" then false
    else
      let str := strTrim (strToLower (jsString v))
      if strListHas ["yes", "true", "assigned", "done", "1"] str then true
      else !(strListHas ["no", "false", "unassigned", "0", ""] str)

/-- A grid whose only header is "Task": nothing matches the action heuristic. -/
def gridNoAction : Grid := [[cellS "Task"]]

/-- The C8 witness grid: an "Action" header, no due-date header. -/
def gridC8 : Grid := [[cellS "Action"], [cellS "Yes"]]

/-- The C9 witness grid: an assigned row whose due-date cell holds "N/A". -/
def gridD : Grid := [[cellS "Action", cellS "Due Date"], [cellS "Yes", cellS "N/A"]]

/-- Evaluation helper: once the located columns and the row-scan counts are
known, `analyzeExcel` returns the aggregated record. -/
lemma analyzeExcel_eq_ok (g : Grid) (today : ℚ) (tz : Int) (aIdx : Nat)
    (dIdx : Option Nat) (t a o : Nat)
    (hf : findColumnsIdx (headerRow g) = (some aIdx, dIdx))
    (hc : (List.range' 1 (g.length - 1)).foldl (analyzeRow g aIdx dIdx today tz)
      (0, 0, 0) = (t, a, o)) :
    analyzeExcel g today tz = Except.ok
      { total_rows := t
        assigned_count := a
        assigned_pct := roundTo1 (if t > 0 then ((a : ℚ) / (t : ℚ)) * 100 else 0)
        overdue_count := o
        overdue_pct_of_assigned :=
          roundTo1 (if a > 0 then ((o : ℚ) / (a : ℚ)) * 100 else 0)
        columns_used_action := encode_col aIdx
        columns_used_due_date := (dIdx.map encode_col).getD "Not found"
        notes :=
          if dIdx.isNone then ["Due Date column not found. Overdue analysis skipped."]
          else [] } := by
  cases dIdx with
  | none =>
    unfold analyzeExcel
    rw [hf]
    dsimp only
    rw [hc]
    rfl
  | some dc =>
    unfold analyzeExcel
    rw [hf]
    dsimp only
    rw [hc]
    rfl

/-- Evaluation of Scenario A: the located columns are A (index 0) and B
(index 1), the row scan counts (3, 2, 2), and the percentages round to 66.7
and 100. -/
lemma scenarioA_eval : analyzeExcel gridA todayA 19800000 = Except.ok resultA := by
  rw [analyzeExcel_eq_ok gridA todayA 19800000 0 (some 1) 3 2 2 (by decide) (by decide)]
  unfold resultA
  congr 1
  congr 1
  · rw [if_pos (by norm_num), roundTo1, round_eq]; norm_num
  · rw [if_pos (by norm_num), roundTo1, round_eq]; norm_num

/-- C2: on the fixed workbook with header row `["Action", "Due Date"]`, data
rows `[["Yes", "2020-01-01"], ["No", "2099-01-01"], ["true", "2020-01-01"]]`
and "today" fixed at 2024-01-01 (Asia/Kolkata local midnight), the analysis
returns `total_rows = 3`, `assigned_count = 2`, `overdue_count = 2`,
`assigned_pct = 66.7` and `overdue_pct_of_assigned = 100.0`. -/
theorem analyzeExcel_scenarioA :
    analyzeExcel gridA todayA 19800000 = Except.ok resultA ∧
    resultA.total_rows = 3 ∧ resultA.assigned_count = 2 ∧
    resultA.overdue_count = 2 ∧ resultA.assigned_pct = 667 / 10 ∧
    resultA.overdue_pct_of_assigned = 100 :=
  ⟨scenarioA_eval, rfl, rfl, rfl, rfl, rfl⟩

/-- C1: evaluating the column locator at a header row whose columns 1 and 2
both match the due-date heuristic: the locator returns column "C" (index 2),
the LAST matching header, not the first ("B", index 1) — the `!dueDateCol`
guard of line 70 binds only to the exact-equality disjunct under JavaScript
precedence, so a later matching header overwrites `dueDateCol`. -/
theorem findColumns_last_due_match_wins :
    findColumns headersC1 = (some "A", some "C") ∧
    dueMatch (cellS "Due Date") = true ∧
    dueMatch (cellS "Start Due Date") = true ∧
    encode_col 1 = "B" ∧ encode_col 2 = "C" := by decide

/-- C3 counterexample: a grid with `total_rows = 1` and `assigned_count = 0`
has `assigned_pct = 0` although `total_rows ≠ 0`, so "assigned_pct = 0 iff
total_rows = 0" fails in the only-if direction. -/
theorem assigned_pct_zero_counterexample :
    Except.map (fun r => (r.total_rows, r.assigned_pct)) (analyzeExcel gridNoAssigned 0 0) =
      Except.ok (1, (0 : ℚ)) ∧ (1 : Nat) ≠ 0 := by
  constructor
  · rw [analyzeExcel_eq_ok gridNoAssigned 0 0 0 none 1 0 0 (by decide) (by decide)]
    dsimp [Except.map]
    norm_num [roundTo1]
  · decide

/-- C3 amended: `assigned_pct` is 0 when `total_rows` is 0, and whenever
`total_rows > 0` it equals `100 * assigned_count / total_rows` rounded to one
decimal place. -/
theorem assigned_pct_formula :
    ∀ (g : Grid) (today : ℚ) (tz : Int) (r : AnalysisResult),
      analyzeExcel g today tz = Except.ok r →
      (r.total_rows = 0 → r.assigned_pct = 0) ∧
      (0 < r.total_rows →
        r.assigned_pct = roundTo1 (100 * (r.assigned_count : ℚ) / (r.total_rows : ℚ))) := by
  intro g today tz r h
  unfold analyzeExcel at h
  rcases hfc : findColumnsIdx (headerRow g) with ⟨a, d⟩
  rw [hfc] at h
  cases a with
  | none => exact absurd h (by simp)
  | some aIdx =>
    dsimp only at h
    injection h with h
    subst h
    constructor
    · intro ht
      dsimp only at ht ⊢
      rw [if_neg (by omega)]
      norm_num [roundTo1]
    · intro ht
      dsimp only at ht ⊢
      rw [if_pos (by omega)]
      congr 1
      ring

/-- Evaluation helper: the numeric branch of `parseDate` on a nonzero serial
`n` lands at local midnight of 1899-12-30 plus `n` days, since
`new Date(1900, 0, 1)` minus 2 days is local midnight of 1899-12-30. -/
lemma parseDate_vNum (n : ℚ) (tz : Int) (h : n ≠ 0) :
    parseDate (some (.vNum n)) tz =
      some (((daysFromCivil 1899 12 30 * 86400000 - tz : Int) : ℚ) + n * 86400000) := by
  have hd : (daysFromCivil 1900 1 1 : Int) = daysFromCivil 1899 12 30 + 2 := by decide
  simp only [parseDate, truthy, h, decide_not, decide_False]
  rw [if_neg (by simp [h])]
  congr 1
  rw [hd]
  push_cast
  ring

/-- C4 counterexample: the numeric serial 0 is falsy, so `parseDate` yields
`none` instead of the date 1899-12-30; and the fractional serial 1/2 yields a
timestamp strictly between two consecutive local midnights (1899-12-30 and
1899-12-31 at UTC+5:30), i.e. the result is not truncated to a calendar date. -/
theorem parseDate_serial_counterexample :
    parseDate (some (.vNum 0)) 19800000 = none ∧
    (none : Option ℚ) ≠
      some ((daysFromCivil 1899 12 30 * 86400000 - 19800000 : Int) : ℚ) ∧
    parseDate (some (.vNum (1 / 2))) 19800000 =
      some (((daysFromCivil 1899 12 30 * 86400000 - 19800000 : Int) : ℚ) +
        (1 / 2) * 86400000) ∧
    ((daysFromCivil 1899 12 30 * 86400000 - 19800000 : Int) : ℚ) <
      ((daysFromCivil 1899 12 30 * 86400000 - 19800000 : Int) : ℚ) +
        (1 / 2) * 86400000 ∧
    ((daysFromCivil 1899 12 30 * 86400000 - 19800000 : Int) : ℚ) +
        (1 / 2) * 86400000 <
      ((daysFromCivil 1899 12 31 * 86400000 - 19800000 : Int) : ℚ) := by
  have h30 : (daysFromCivil 1899 12 30 : Int) = -25569 := by decide
  have h31 : (daysFromCivil 1899 12 31 : Int) = -25568 := by decide
  refine ⟨by decide, by decide, parseDate_vNum (1 / 2) 19800000 (by norm_num), ?_, ?_⟩
  · rw [h30]; push_cast; norm_num
  · rw [h30, h31]; push_cast; norm_num

/-- C4 amended: for every NONZERO numeric cell value `n`, the result of the
date normalizer is local midnight of the calendar date 1899-12-30 plus exactly
`n` days (epoch 1900-01-01 minus a 2-day correction); for integral `n` that is
a calendar date with no time-of-day, while a fractional `n` keeps its
fractional-day time component (no truncation), and `n = 0` is treated as blank,
yielding `none`. -/
theorem parseDate_serial_amended :
    ∀ (n : ℚ) (tz : Int), n ≠ 0 →
      parseDate (some (.vNum n)) tz =
        some (((daysFromCivil 1899 12 30 * 86400000 - tz : Int) : ℚ) + n * 86400000) :=
  fun n tz h => parseDate_vNum n tz h

/-- Witness for `parseDate_serial_amended` at the serial 3 and offset
UTC+5:30. -/
theorem parseDate_serial_amended_witness :
    (3 : ℚ) ≠ 0 ∧
    parseDate (some (.vNum 3)) 19800000 =
      some (((daysFromCivil 1899 12 30 * 86400000 - 19800000 : Int) : ℚ) +
        3 * 86400000) :=
  ⟨by norm_num, parseDate_serial_amended 3 19800000 (by norm_num)⟩

/-- C5: the assignment classifier agrees with the specification's rule on
every value (blank/absent is unassigned, positive keywords are assigned,
everything else is assigned unless in the negative keyword set); in
particular "No" is not assigned and "Maybe" is assigned. -/
theorem isAssigned_characterization :
    (∀ v, isAssigned v = isAssignedSpec v) ∧
    isAssigned (some (.vStr "No")) = false ∧
    isAssigned (some (.vStr "Maybe")) = true := by
  refine ⟨?_, by decide, by decide⟩
  intro v
  cases v with
  | none => rfl
  | some val =>
    simp only [isAssigned, isAssignedSpec]
    split
    · rfl
    · cases hpos : strListHas ["yes", "true", "assigned", "done", "1"]
        (strTrim (strToLower (jsString val)))
      · simp only [hpos, Bool.false_or, if_neg Bool.false_ne_true]
        simp [strListHas, Bool.not_or, bne, Bool.and_assoc]
      · simp [hpos]

/-- Fold-invariant helper: a property preserved by each loop iteration holds
for the final accumulator. -/
lemma foldl_preserve {σ : Type} (P : σ → Prop) (f : σ → Nat → σ)
    (hf : ∀ s x, P s → P (f s x)) :
    ∀ (l : List Nat) (s : σ), P s → P (List.foldl f s l) := by
  intro l
  induction l with
  | nil => intro s hs; exact hs
  | cons x xs ih => intro s hs; exact ih (f s x) (hf s x hs)

/-- Each loop iteration keeps `overdueCount ≤ assignedCount ≤ totalRows`. -/
lemma analyzeRow_mono (g : Grid) (aIdx : Nat) (dIdx : Option Nat) (today : ℚ)
    (tz : Int) (acc : Nat × Nat × Nat) (row : Nat)
    (h : acc.2.2 ≤ acc.2.1 ∧ acc.2.1 ≤ acc.1) :
    (analyzeRow g aIdx dIdx today tz acc row).2.2 ≤
      (analyzeRow g aIdx dIdx today tz acc row).2.1 ∧
    (analyzeRow g aIdx dIdx today tz acc row).2.1 ≤
      (analyzeRow g aIdx dIdx today tz acc row).1 := by
  obtain ⟨h1, h2⟩ := h
  unfold analyzeRow
  by_cases hskip : ((cellAt g row aIdx).isNone && dIdx.isNone) = true
  · rw [if_pos hskip]; exact ⟨h1, h2⟩
  · rw [if_neg hskip]
    by_cases ha : isAssigned (wv (cellAt g row aIdx)) = true
    · rw [if_pos ha]
      cases dIdx with
      | none => dsimp only; exact ⟨by omega, by omega⟩
      | some dc =>
        dsimp only
        generalize parseDate (wv (cellAt g row dc)) tz = pd
        cases pd with
        | none => dsimp only; exact ⟨by omega, by omega⟩
        | some due =>
          dsimp only
          by_cases hlt : due < today
          · rw [if_pos hlt]; dsimp only; exact ⟨by omega, by omega⟩
          · rw [if_neg hlt]; dsimp only; exact ⟨by omega, by omega⟩
    · rw [if_neg ha]; dsimp only; exact ⟨by omega, by omega⟩

/-- C6: every successful analysis satisfies
`0 ≤ overdue_count ≤ assigned_count ≤ total_rows`. -/
theorem counts_invariant :
    ∀ (g : Grid) (today : ℚ) (tz : Int) (r : AnalysisResult),
      analyzeExcel g today tz = Except.ok r →
      0 ≤ r.overdue_count ∧ r.overdue_count ≤ r.assigned_count ∧
        r.assigned_count ≤ r.total_rows := by
  intro g today tz r h
  unfold analyzeExcel at h
  rcases hfc : findColumnsIdx (headerRow g) with ⟨a, d⟩
  rw [hfc] at h
  cases a with
  | none => exact absurd h (by simp)
  | some aIdx =>
    dsimp only at h
    injection h with h
    subst h
    dsimp only
    have hinv := foldl_preserve
      (fun s : Nat × Nat × Nat => s.2.2 ≤ s.2.1 ∧ s.2.1 ≤ s.1)
      (analyzeRow g aIdx d today tz)
      (fun s x hs => analyzeRow_mono g aIdx d today tz s x hs)
      (List.range' 1 (g.length - 1)) (0, 0, 0) ⟨le_refl 0, le_refl 0⟩
    exact ⟨Nat.zero_le _, hinv.1, hinv.2⟩

/-- Witness for `counts_invariant` at the Scenario A workbook. -/
theorem counts_invariant_witness :
    0 ≤ resultA.overdue_count ∧ resultA.overdue_count ≤ resultA.assigned_count ∧
      resultA.assigned_count ≤ resultA.total_rows :=
  counts_invariant gridA todayA 19800000 resultA scenarioA_eval

/-- Witness for `assigned_pct_formula` at the Scenario A workbook. -/
theorem assigned_pct_formula_witness :
    (resultA.total_rows = 0 → resultA.assigned_pct = 0) ∧
    (0 < resultA.total_rows →
      resultA.assigned_pct =
        roundTo1 (100 * (resultA.assigned_count : ℚ) / (resultA.total_rows : ℚ))) :=
  assigned_pct_formula gridA todayA 19800000 resultA scenarioA_eval

/-- If no header matches the action heuristic, the scan never assigns
`actionCol`. -/
lemma fcGo_fst_none (hs : List (Option Cell))
    (hno : ∀ oc ∈ hs, actionMatch oc = false) :
    ∀ (i : Nat) (d : Option Nat), (fcGo hs i none d).1 = none := by
  induction hs with
  | nil => intro i d; rfl
  | cons oc rest ih =>
    intro i d
    have hoc := hno oc (List.mem_cons_self oc rest)
    have hrest : ∀ x ∈ rest, actionMatch x = false :=
      fun x hx => hno x (List.mem_cons_of_mem oc hx)
    cases oc with
    | none => exact ih hrest (i + 1) d
    | some c =>
      have hc : strContains (headerStr c) "action" = false := hoc
      simp only [fcGo, hc, Bool.false_and, Bool.false_eq_true, if_false]
      split
      · exact ih hrest (i + 1) (some i)
      · exact ih hrest (i + 1) d

/-- C7 amended: a workbook whose header row has no column matching the action
heuristic fails with exactly the code's message (which quotes Action in DOUBLE
quotation marks), and no result record is produced. -/
theorem missing_action_column :
    ∀ (g : Grid) (today : ℚ) (tz : Int),
      (∀ oc ∈ headerRow g, actionMatch oc = false) →
      analyzeExcel g today tz =
        Except.error "Action column not found. Please ensure your Excel file has an \"Action\" column." := by
  intro g today tz hno
  have h1 : (findColumnsIdx (headerRow g)).1 = none := fcGo_fst_none _ hno 0 none
  rcases hfc : findColumnsIdx (headerRow g) with ⟨a, d⟩
  rw [hfc] at h1
  dsimp only at h1
  subst h1
  unfold analyzeExcel
  rw [hfc]

/-- C7 counterexample: the error message carried by the failure quotes the
word Action in double quotation marks, so it differs from the claimed message,
which uses single quotation marks. -/
theorem missing_action_message_counterexample :
    analyzeExcel gridNoAction 0 0 =
      Except.error "Action column not found. Please ensure your Excel file has an \"Action\" column." ∧
    "Action column not found. Please ensure your Excel file has an \"Action\" column." ≠
      "Action column not found. Please ensure your Excel file has an \x27Action\x27 column." := by
  exact ⟨by decide, by decide⟩

/-- Witness for `missing_action_column` at the headers-only grid. -/
theorem missing_action_column_witness :
    analyzeExcel gridNoAction 5 7 =
      Except.error "Action column not found. Please ensure your Excel file has an \"Action\" column." :=
  missing_action_column gridNoAction 5 7 (by decide)

/-- Without a due-date column, a loop iteration never touches `overdueCount`. -/
lemma analyzeRow_no_due (g : Grid) (aIdx : Nat) (today : ℚ) (tz : Int) :
    ∀ (acc : Nat × Nat × Nat) (row : Nat),
      (analyzeRow g aIdx none today tz acc row).2.2 = acc.2.2 := by
  intro acc row
  unfold analyzeRow
  dsimp only
  by_cases hskip : ((cellAt g row aIdx).isNone && (none : Option Nat).isNone) = true
  · rw [if_pos hskip]
  · rw [if_neg hskip]
    by_cases ha : isAssigned (wv (cellAt g row aIdx)) = true
    · rw [if_pos ha]
    · rw [if_neg ha]

/-- C8: a workbook with an action column but no due-date column analyzes
successfully with `overdue_count = 0`, the single verbatim note, and the
"Not found" sentinel as the reported due-date column. -/
theorem no_due_column_degrades :
    ∀ (g : Grid) (today : ℚ) (tz : Int) (a : Nat),
      findColumnsIdx (headerRow g) = (some a, none) →
      Except.map (fun r => (r.overdue_count, r.notes, r.columns_used_due_date))
        (analyzeExcel g today tz) =
      Except.ok (0, ["Due Date column not found. Overdue analysis skipped."], "Not found") := by
  intro g today tz a hfc
  have h0 : ((List.range' 1 (g.length - 1)).foldl (analyzeRow g a none today tz)
      (0, 0, 0)).2.2 = 0 :=
    foldl_preserve (fun s : Nat × Nat × Nat => s.2.2 = 0) _
      (fun s x hs => by
        show (analyzeRow g a none today tz s x).2.2 = 0
        rw [analyzeRow_no_due g a today tz s x]
        exact hs) _ _ rfl
  unfold analyzeExcel
  rw [hfc]
  dsimp only [Except.map]
  rw [h0]
  rfl

/-- Witness for `no_due_column_degrades` at `gridC8`. -/
theorem no_due_column_degrades_witness :
    Except.map (fun r => (r.overdue_count, r.notes, r.columns_used_due_date))
      (analyzeExcel gridC8 3 11) =
    Except.ok (0, ["Due Date column not found. Overdue analysis skipped."], "Not found") :=
  no_due_column_degrades gridC8 3 11 0 (by decide)

/-- C9: the date normalizer never fails — absent input and unparseable input
(e.g. "N/A") yield `None` — and a row whose due-date value normalizes to
`None` never increments the overdue count, while it still increments the
assigned count whenever its action value classifies as assigned. -/
theorem unparseable_due_dates :
    (∀ tz : Int, parseDate none tz = none) ∧
    (∀ tz : Int, parseDate (some (.vStr "N/A")) tz = none) ∧
    (∀ (g : Grid) (aIdx dc : Nat) (today : ℚ) (tz : Int) (acc : Nat × Nat × Nat)
        (row : Nat),
      parseDate (wv (cellAt g row dc)) tz = none →
      (analyzeRow g aIdx (some dc) today tz acc row).2.2 = acc.2.2 ∧
      (isAssigned (wv (cellAt g row aIdx)) = true →
        (analyzeRow g aIdx (some dc) today tz acc row).2.1 = acc.2.1 + 1)) := by
  refine ⟨fun tz => rfl, fun tz => rfl, ?_⟩
  intro g aIdx dc today tz acc row hp
  by_cases ha : isAssigned (wv (cellAt g row aIdx)) = true
  · constructor
    · simp [analyzeRow, hp, ha]
    · intro _
      simp [analyzeRow, hp, ha]
  · have ha' : isAssigned (wv (cellAt g row aIdx)) = false := by
      simpa using ha
    constructor
    · simp [analyzeRow, ha']
    · intro hcontra
      exact absurd hcontra ha

/-- Witness for `unparseable_due_dates` at `gridD`, row 1. -/
theorem unparseable_due_dates_witness :
    (analyzeRow gridD 0 (some 1) 0 7 (0, 0, 0) 1).2.2 =
      ((0, 0, 0) : Nat × Nat × Nat).2.2 ∧
    (analyzeRow gridD 0 (some 1) 0 7 (0, 0, 0) 1).2.1 =
      ((0, 0, 0) : Nat × Nat × Nat).2.1 + 1 :=
  ⟨(unparseable_due_dates.2.2 gridD 0 1 0 7 (0, 0, 0) 1 (by decide)).1,
   (unparseable_due_dates.2.2 gridD 0 1 0 7 (0, 0, 0) 1 (by decide)).2 (by decide)⟩

/-- C10: the value fed to the classifier and to the date normalizer is the
display text `w` when present and non-empty, the raw value otherwise; hence a
numeric-serial cell carrying display text is parsed through the string branch
(`parseDateString`), so its classification follows the display format. -/
theorem display_text_precedence :
    ∀ (s : String) (v : Option JSVal) (w : Option String) (tz : Int),
      s ≠ "" → (w = none ∨ w = some "") →
      wv (some ⟨some s, v⟩) = some (.vStr s) ∧
      wv (some ⟨w, v⟩) = v ∧
      parseDate (wv (some ⟨some s, v⟩)) tz = parseDateString s := by
  intro s v w tz hs hw
  have h1 : wv (some ⟨some s, v⟩) = some (.vStr s) := by simp [wv, hs]
  refine ⟨h1, ?_, ?_⟩
  · rcases hw with h | h <;> subst h <;> simp [wv]
  · rw [h1]
    simp [parseDate, truthy, hs]

/-- Witness for `display_text_precedence`: a due-date cell with serial 45000
and display text "2020-01-01". -/
theorem display_text_precedence_witness :
    wv (some ⟨some "2020-01-01", some (.vNum 45000)⟩) = some (.vStr "2020-01-01") ∧
    wv (some ⟨none, some (.vNum 45000)⟩) = some (.vNum 45000) ∧
    parseDate (wv (some ⟨some "2020-01-01", some (.vNum 45000)⟩)) 0 =
      parseDateString "2020-01-01" :=
  display_text_precedence "2020-01-01" (some (.vNum 45000)) none 0 (by decide)
    (Or.inl rfl)

end ExcelSpec
